import Mathlib

/-!
FSAL_ZFS module core: configuration binding and registration.

A shallow embedding of `src/FSAL/FSAL_ZFS/main.c`.

* C structures become Lean structures with the members the file names.
* The file-scope objects `default_zfs_info` and `ZFS` are mutable C
  globals; they live in `World`, together with the host registry that
  `register_fsal` works on, the log written through the logging calls and
  the text written to `stderr`.
* Unsigned machine integers are `Nat`, the C `int` return codes are `Int`.
* Functions that main.c calls but does not define (`load_config_from_parse`,
  `register_fsal`, `init_fsal_parameters`) are arguments of the functions
  that call them.  Where a property depends on what they do, a definition
  modelled from the specification is supplied and named as such.
-/

namespace FSAL_ZFS

/-! Constants and types from headers -/

/-- Constants main.c takes from headers that are not part of the file. -/
structure build_constants where
  MAXNAMLEN : Nat
  MAXPATHLEN : Nat
  FSAL_ACLSUPPORT_ALLOW : Nat
  ZFS_SUPPORTED_ATTRIBUTES : Nat
  FSAL_MAJOR_VERSION : Nat
  FSAL_MINOR_VERSION : Nat
deriving DecidableEq, Repr

/-- The two members of `lease_time`, initialised as `{10, 0}`. -/
structure lease_time_t where
  tv_sec : Nat
  tv_nsec : Nat
deriving DecidableEq, Repr

/-- The members of `struct fsal_staticfsinfo_t` that main.c names: the
seventeen initialised in `default_zfs_info` and the eight that are targets of
an item of `zfs_params`. -/
structure fsal_staticfsinfo_t where
  maxfilesize : Nat
  maxlink : Nat
  maxnamelen : Nat
  maxpathlen : Nat
  no_trunc : Bool
  chown_restricted : Bool
  case_insensitive : Bool
  case_preserving : Bool
  lock_support : Bool
  lock_support_owner : Bool
  lock_support_async_block : Bool
  named_attr : Bool
  unique_handles : Bool
  lease_time : lease_time_t
  acl_support : Nat
  homogenous : Bool
  supported_attrs : Nat
  link_support : Bool
  symlink_support : Bool
  cansettime : Bool
  maxread : Nat
  maxwrite : Nat
  umask : Nat
  auth_exportpath_xdev : Bool
  xattr_access_rights : Nat
deriving DecidableEq, Repr

/-- Major codes of `fsal_status_t`.  main.c uses two of them; `other` stands
for the remaining members of the enumeration. -/
inductive fsal_errors_t where
  | ERR_FSAL_NO_ERROR
  | ERR_FSAL_INVAL
  | other (code : Nat)
deriving DecidableEq, Repr

/-- The status pair returned by FSAL methods. -/
structure fsal_status_t where
  major : fsal_errors_t
  minor : Int
deriving DecidableEq, Repr

/-- The status constructor `fsalstat(major, minor)`. -/
def fsalstat (major : fsal_errors_t) (minor : Int) : fsal_status_t :=
  { major := major, minor := minor }

/-! The configuration schema -/

/-- Boolean members of the descriptor that an item can target. -/
inductive bool_member where
  | link_support
  | symlink_support
  | cansettime
  | auth_exportpath_xdev
deriving DecidableEq, Repr

/-- 32-bit unsigned members of the descriptor that an item can target. -/
inductive ui32_member where
  | maxread
  | maxwrite
deriving DecidableEq, Repr

/-- Mode members of the descriptor that an item can target. -/
inductive mode_member where
  | umask
  | xattr_access_rights
deriving DecidableEq, Repr

/-- Type, bounds, default and target member of one schema item. -/
inductive item_type where
  | CONFIG_BOOL (dflt : Bool) (mem : bool_member)
  | CONFIG_UINT32 (minval maxval dflt : Nat) (mem : ui32_member)
  | CONFIG_MODE (minval maxval dflt : Nat) (mem : mode_member)
deriving DecidableEq, Repr

/-- One entry of a parameter table. -/
structure config_item where
  name : String
  type : item_type
deriving DecidableEq, Repr

/-- Modelled from the spec: the item constructor for `bool` keys, defined in a
header outside the file.  Its arguments are the key, the default, and the
target member (structure and member name in C). -/
def CONF_ITEM_BOOL (name : String) (dflt : Bool) (mem : bool_member) : config_item :=
  { name := name, type := item_type.CONFIG_BOOL dflt mem }

/-- Modelled from the spec: the item constructor for `uint` keys, defined in a
header outside the file.  Its arguments are the key, the lower bound, the
upper bound, the default, and the target member. -/
def CONF_ITEM_UI32 (name : String) (minval maxval dflt : Nat) (mem : ui32_member) :
    config_item :=
  { name := name, type := item_type.CONFIG_UINT32 minval maxval dflt mem }

/-- Modelled from the spec: the item constructor for `mode` keys, defined in a
header outside the file.  Its arguments are the key, the lower bound, the
upper bound, the default, and the target member. -/
def CONF_ITEM_MODE (name : String) (minval maxval dflt : Nat) (mem : mode_member) :
    config_item :=
  { name := name, type := item_type.CONFIG_MODE minval maxval dflt mem }

/-- The parameter table of the ZFS block; the list ends where the C table has
its terminator `CONFIG_EOL`. -/
def zfs_params : List config_item :=
  [ CONF_ITEM_BOOL "link_support" true bool_member.link_support,
    CONF_ITEM_BOOL "symlink_support" true bool_member.symlink_support,
    CONF_ITEM_BOOL "cansettime" true bool_member.cansettime,
    CONF_ITEM_UI32 "maxread" 512 (1024 * 1024) 1000000 ui32_member.maxread,
    CONF_ITEM_UI32 "maxwrite" 512 (1024 * 1024) 1000000 ui32_member.maxwrite,
    CONF_ITEM_MODE "umask" 0 0o777 0 mode_member.umask,
    CONF_ITEM_BOOL "auth_xdev_export" false bool_member.auth_exportpath_xdev,
    CONF_ITEM_MODE "xattr_access_rights" 0 0o777 0o400 mode_member.xattr_access_rights ]

/-- Kind of a configuration node; main.c uses `CONFIG_BLOCK`. -/
inductive config_node_type where
  | CONFIG_BLOCK
deriving DecidableEq, Repr

/-- The block hooks main.c installs, both named as doing nothing. -/
inductive block_hook where
  | noop_conf_init
  | noop_conf_commit
deriving DecidableEq, Repr

/-- The members of `struct config_block` that main.c initialises. -/
structure config_block where
  dbus_interface_name : String
  name : String
  type : config_node_type
  init : block_hook
  params : List config_item
  commit : block_hook
deriving DecidableEq, Repr

/-- The block descriptor handed to the loader. -/
def zfs_param : config_block :=
  { dbus_interface_name := "org.ganesha.nfsd.config.fsal.zfs",
    name := "ZFS",
    type := config_node_type.CONFIG_BLOCK,
    init := block_hook.noop_conf_init,
    params := zfs_params,
    commit := block_hook.noop_conf_commit }

/-! Module storage and globals -/

/-- Identity of a function stored in an operation table. -/
inductive fsal_fn where
  | zfs_create_export
  | init_config
  | host (slot : String)
deriving DecidableEq, Repr

/-- The operation table `struct fsal_ops`: the two members main.c assigns and
every other member, addressed by its name. -/
structure fsal_ops where
  create_export : fsal_fn
  init_config : fsal_fn
  other : String → fsal_fn

/-- The member of `struct fsal_module` that main.c uses: the pointer to the
operation table (`none` is the null pointer). -/
structure fsal_module where
  ops : Option fsal_ops

/-- The private storage `struct zfs_fsal_module`.  The type of `fsal_info`
comes from a header outside the file and is the parameter `I`. -/
structure zfs_fsal_module (I : Type) where
  fsal : fsal_module
  fs_info : fsal_staticfsinfo_t
  fsal_info : I

/-- The module name. -/
def myname : String := "ZFS"

/-- The initial value of the file-scope object `default_zfs_info`.  Members
without an initialiser are zero, as C initialises them. -/
def default_zfs_info (k : build_constants) : fsal_staticfsinfo_t :=
  { maxfilesize := 0xFFFFFFFFFFFFFFFF,
    maxlink := 1024,
    maxnamelen := k.MAXNAMLEN % 2 ^ 32,
    maxpathlen := k.MAXPATHLEN % 2 ^ 32,
    no_trunc := true,
    chown_restricted := true,
    case_insensitive := false,
    case_preserving := true,
    lock_support := false,
    lock_support_owner := false,
    lock_support_async_block := false,
    named_attr := true,
    unique_handles := true,
    lease_time := { tv_sec := 10, tv_nsec := 0 },
    acl_support := k.FSAL_ACLSUPPORT_ALLOW,
    homogenous := true,
    supported_attrs := k.ZFS_SUPPORTED_ATTRIBUTES % 2 ^ 64,
    link_support := false,
    symlink_support := false,
    cansettime := false,
    maxread := 0,
    maxwrite := 0,
    umask := 0,
    auth_exportpath_xdev := false,
    xattr_access_rights := 0 }

/-- Modelled from the spec: `display_fsinfo`, `LogFullDebug` and `LogDebug` are
defined outside main.c and belong to the logging collaborator; each call
leaves one record, with the value it is given, and writes nothing else. -/
inductive log_record where
  | display_fsinfo (info : fsal_staticfsinfo_t)
  | LogFullDebug (text : String) (value : Nat)
  | LogDebug (text : String) (value : Nat)
deriving DecidableEq, Repr

/-- Everything the functions of main.c read or write: the host state that
`register_fsal` works on (type `H`), the two file-scope objects, the log and
the standard error stream. -/
structure World (H I : Type) where
  host : H
  default_zfs_info : fsal_staticfsinfo_t
  ZFS : zfs_fsal_module I
  log : List log_record
  stderr : List String

/-- The helper for the export object: the descriptor of the module that
contains the handle. -/
def zfs_staticinfo {H I : Type} (w : World H I) : fsal_staticfsinfo_t :=
  w.ZFS.fs_info

/-! Module methods -/

/-- The method `init_config`.  `load_config_from_parse` is defined outside
main.c and is an argument; it receives the parse tree, the block descriptor,
the address of the module descriptor (here: its value, the written value is
returned) and the flag `true`.  The logging calls append to the log. -/
def init_config {C H I : Type}
    (load_config_from_parse :
      C → config_block → fsal_staticfsinfo_t → Bool → Int × fsal_staticfsinfo_t)
    (k : build_constants) (config_struct : C) (w : World H I) :
    fsal_status_t × World H I :=
  let w1 : World H I := { w with ZFS := { w.ZFS with fs_info := w.default_zfs_info } }
  let r := load_config_from_parse config_struct zfs_param w1.ZFS.fs_info true
  let rc : Int := r.1
  let w2 : World H I := { w1 with ZFS := { w1.ZFS with fs_info := r.2 } }
  if rc < 0 then
    (fsalstat fsal_errors_t.ERR_FSAL_INVAL 0, w2)
  else
    let w3 : World H I :=
      { w2 with
        log := w2.log ++
          [ log_record.display_fsinfo w2.ZFS.fs_info,
            log_record.LogFullDebug "Supported attributes constant = 0x%"
              (k.ZFS_SUPPORTED_ATTRIBUTES % 2 ^ 64),
            log_record.LogFullDebug "Supported attributes default = 0x%"
              w2.default_zfs_info.supported_attrs,
            log_record.LogDebug "FSAL INIT: Supported attributes mask = 0x%"
              w2.ZFS.fs_info.supported_attrs ] }
    (fsalstat fsal_errors_t.ERR_FSAL_NO_ERROR 0, w3)

/-- The module initialiser `zfs_load`.  `register_fsal` and
`init_fsal_parameters` are defined outside main.c and are arguments.
`register_fsal` receives the host state, the module handle, the name and the
two version numbers, and returns its code with the host state and the handle as
it leaves them.  The result is `none` when the operation table pointer is null
at the first assignment through it. -/
def zfs_load {H I : Type}
    (register_fsal : H → fsal_module → String → Nat → Nat → Int × H × fsal_module)
    (init_fsal_parameters : I → I)
    (k : build_constants) (w : World H I) : Option (World H I) :=
  let r := register_fsal w.host w.ZFS.fsal myname k.FSAL_MAJOR_VERSION k.FSAL_MINOR_VERSION
  let retval : Int := r.1
  let w1 : World H I := { w with host := r.2.1, ZFS := { w.ZFS with fsal := r.2.2 } }
  if retval ≠ 0 then
    some { w1 with stderr := w1.stderr ++ ["ZFS module failed to register"] }
  else
    match w1.ZFS.fsal.ops with
    | none => none
    | some ops =>
      let ops1 : fsal_ops := { ops with create_export := fsal_fn.zfs_create_export }
      let ops2 : fsal_ops := { ops1 with init_config := fsal_fn.init_config }
      some { w1 with
             ZFS := { fsal := { ops := some ops2 },
                      fs_info := w1.ZFS.fs_info,
                      fsal_info := init_fsal_parameters w1.ZFS.fsal_info } }

/-- The module finaliser `zfs_unload`.  `unregister_fsal` is defined outside
main.c and is an argument. -/
def zfs_unload {H I : Type}
    (unregister_fsal : H → fsal_module → Int × H × fsal_module)
    (w : World H I) : World H I :=
  let r := unregister_fsal w.host w.ZFS.fsal
  let retval : Int := r.1
  let w1 : World H I := { w with host := r.2.1, ZFS := { w.ZFS with fsal := r.2.2 } }
  if retval ≠ 0 then
    { w1 with stderr := w1.stderr ++ ["ZFS module failed to unregister"] }
  else
    w1

/-! The configuration loader, modelled from the specification -/

/-- Modelled from the spec: a value of the key/value block, a boolean or an
integer (unsigned and mode keys take integers). -/
inductive conf_value where
  | bool (b : Bool)
  | num (n : Int)
deriving DecidableEq, Repr

/-- Modelled from the spec: the configuration overlay, a key/value block
(`overrides: mapping[string→value]`), as the list of its entries in file
order. -/
abbrev config_file_t := List (String × conf_value)

/-- Modelled from the spec: the configuration error taxonomy. -/
inductive ConfigError where
  | UnknownKey
  | OutOfRange
deriving DecidableEq, Repr

/-- Modelled from the spec: the key lookup in a parameter table, part of the
loader that is outside main.c.  It returns the first item with the key. -/
def find_item (params : List config_item) (name : String) : Option config_item :=
  params.find? (fun item => item.name == name)

/-- Store into a boolean member of the descriptor. -/
def set_bool (mem : bool_member) (b : Bool) (d : fsal_staticfsinfo_t) :
    fsal_staticfsinfo_t :=
  match mem with
  | bool_member.link_support => { d with link_support := b }
  | bool_member.symlink_support => { d with symlink_support := b }
  | bool_member.cansettime => { d with cansettime := b }
  | bool_member.auth_exportpath_xdev => { d with auth_exportpath_xdev := b }

/-- Store into a 32-bit unsigned member of the descriptor. -/
def set_ui32 (mem : ui32_member) (n : Nat) (d : fsal_staticfsinfo_t) :
    fsal_staticfsinfo_t :=
  match mem with
  | ui32_member.maxread => { d with maxread := n % 2 ^ 32 }
  | ui32_member.maxwrite => { d with maxwrite := n % 2 ^ 32 }

/-- Store into a mode member of the descriptor. -/
def set_mode (mem : mode_member) (n : Nat) (d : fsal_staticfsinfo_t) :
    fsal_staticfsinfo_t :=
  match mem with
  | mode_member.umask => { d with umask := n % 2 ^ 32 }
  | mode_member.xattr_access_rights => { d with xattr_access_rights := n % 2 ^ 32 }

/-- Read a 32-bit unsigned member of the descriptor. -/
def get_ui32 (mem : ui32_member) (d : fsal_staticfsinfo_t) : Nat :=
  match mem with
  | ui32_member.maxread => d.maxread
  | ui32_member.maxwrite => d.maxwrite

/-- Read a mode member of the descriptor. -/
def get_mode (mem : mode_member) (d : fsal_staticfsinfo_t) : Nat :=
  match mem with
  | mode_member.umask => d.umask
  | mode_member.xattr_access_rights => d.xattr_access_rights

/-- Modelled from the spec: the loader, outside main.c, writes the default of
a schema item into its target member (`{key, type, min, max, default, target
field}`). -/
def set_default (d : fsal_staticfsinfo_t) (item : config_item) : fsal_staticfsinfo_t :=
  match item.type with
  | item_type.CONFIG_BOOL dflt mem => set_bool mem dflt d
  | item_type.CONFIG_UINT32 _ _ dflt mem => set_ui32 mem dflt d
  | item_type.CONFIG_MODE _ _ dflt mem => set_mode mem dflt d

/-- Modelled from the spec: the loader, outside main.c, applies one override.
A key without an item is `UnknownKey`; a value outside the declared range, or
not a value of the declared type, is `OutOfRange`; nothing is clamped. -/
def apply_override (params : List config_item) (d : fsal_staticfsinfo_t)
    (entry : String × conf_value) : Except ConfigError fsal_staticfsinfo_t :=
  match find_item params entry.1 with
  | none => Except.error ConfigError.UnknownKey
  | some item =>
    match item.type, entry.2 with
    | item_type.CONFIG_BOOL _ mem, conf_value.bool b => Except.ok (set_bool mem b d)
    | item_type.CONFIG_UINT32 minval maxval _ mem, conf_value.num n =>
      if (minval : Int) ≤ n ∧ n ≤ (maxval : Int) then Except.ok (set_ui32 mem n.toNat d)
      else Except.error ConfigError.OutOfRange
    | item_type.CONFIG_MODE minval maxval _ mem, conf_value.num n =>
      if (minval : Int) ≤ n ∧ n ≤ (maxval : Int) then Except.ok (set_mode mem n.toNat d)
      else Except.error ConfigError.OutOfRange
    | _, _ => Except.error ConfigError.OutOfRange

/-- Apply the overrides in order, stopping at the first rejected one. -/
def apply_overrides (params : List config_item) (d : fsal_staticfsinfo_t) :
    config_file_t → Except ConfigError fsal_staticfsinfo_t
  | [] => Except.ok d
  | entry :: rest =>
    match apply_override params d entry with
    | Except.error e => Except.error e
    | Except.ok d1 => apply_overrides params d1 rest

/-- Modelled from the spec: the configuration binder
`bind(defaults, overrides) -> CapabilityDescriptor | ConfigError`, the part of
the loader outside main.c that merges the defaults with the overrides and
validates keys and ranges. -/
def bind (params : List config_item) (defaults : fsal_staticfsinfo_t)
    (overrides : config_file_t) : Except ConfigError fsal_staticfsinfo_t :=
  apply_overrides params (params.foldl set_default defaults) overrides

/-- Modelled from the spec: `load_config_from_parse`, defined outside main.c.
It binds the overlay into the descriptor it is given and returns 0, or returns
a negative code and leaves the descriptor as it was when the binder rejects
the overlay.  The last argument is the flag main.c passes. -/
def load_config_from_parse (config : config_file_t) (conf_blk : config_block)
    (param : fsal_staticfsinfo_t) (_unique : Bool) : Int × fsal_staticfsinfo_t :=
  match bind conf_blk.params param config with
  | Except.ok d => (0, d)
  | Except.error _ => (-1, param)

/-- The range check of one schema item on a descriptor. -/
def range_ok (item : config_item) (d : fsal_staticfsinfo_t) : Bool :=
  match item.type with
  | item_type.CONFIG_BOOL _ _ => true
  | item_type.CONFIG_UINT32 minval maxval _ mem =>
    decide (minval ≤ get_ui32 mem d) && decide (get_ui32 mem d ≤ maxval)
  | item_type.CONFIG_MODE minval maxval _ mem =>
    decide (minval ≤ get_mode mem d) && decide (get_mode mem d ≤ maxval)

/-! Registration, modelled from the specification -/

/-- Modelled from the spec: the operation table the host installs at
registration, every member bound to the host default of its slot. -/
def def_fsal_ops : fsal_ops :=
  { create_export := fsal_fn.host "create_export",
    init_config := fsal_fn.host "init_config",
    other := fun slot => fsal_fn.host slot }

/-- Modelled from the spec: the code returned for `AlreadyRegistered`; the
spec names the outcome and not its number, any non-zero value serves. -/
def AlreadyRegistered : Int := 17

/-- Modelled from the spec: `register_fsal`, defined outside main.c
(`register() -> ok | AlreadyRegistered`).  The host state is the list of the
registered module names.  Registering a name already in it returns
`AlreadyRegistered` and changes nothing; otherwise the host installs its
operation table in the handle, records the name and returns 0.  main.c passes
the version numbers of the host it is built with, so the compatibility check
passes. -/
def register_fsal (host : List String) (fsal_hdl : fsal_module) (name : String)
    (_major _minor : Nat) : Int × List String × fsal_module :=
  if name ∈ host then (AlreadyRegistered, host, fsal_hdl)
  else (0, name :: host, { fsal_hdl with ops := some def_fsal_ops })

/-! Concrete states for evaluation -/

/-- A descriptor with every member zero, the value of static storage without
an initialiser. -/
def zero_fsinfo : fsal_staticfsinfo_t :=
  { maxfilesize := 0, maxlink := 0, maxnamelen := 0, maxpathlen := 0, no_trunc := false,
    chown_restricted := false, case_insensitive := false, case_preserving := false,
    lock_support := false, lock_support_owner := false, lock_support_async_block := false,
    named_attr := false, unique_handles := false, lease_time := { tv_sec := 0, tv_nsec := 0 },
    acl_support := 0, homogenous := false, supported_attrs := 0, link_support := false,
    symlink_support := false, cansettime := false, maxread := 0, maxwrite := 0, umask := 0,
    auth_exportpath_xdev := false, xattr_access_rights := 0 }

/-- The state when the module is loaded: no module registered with the host,
`default_zfs_info` at its initial value, the static object `ZFS` all zero
(null operation table pointer), nothing logged or printed. -/
def initial_world (k : build_constants) : World (List String) Nat :=
  { host := [],
    default_zfs_info := default_zfs_info k,
    ZFS := { fsal := { ops := none }, fs_info := zero_fsinfo, fsal_info := 0 },
    log := [],
    stderr := [] }

/-- Sample values of the header constants, for evaluating on concrete states;
no general theorem depends on them. -/
def sample_constants : build_constants :=
  { MAXNAMLEN := 255,
    MAXPATHLEN := 4096,
    FSAL_ACLSUPPORT_ALLOW := 1,
    ZFS_SUPPORTED_ATTRIBUTES := 0x1FFFE,
    FSAL_MAJOR_VERSION := 2,
    FSAL_MINOR_VERSION := 0 }

/-- The members of the descriptor that are the target of no item of
`zfs_params` agree in two descriptors. -/
def same_unconfigured (a b : fsal_staticfsinfo_t) : Prop :=
  a.maxfilesize = b.maxfilesize ∧ a.maxlink = b.maxlink ∧
  a.maxnamelen = b.maxnamelen ∧ a.maxpathlen = b.maxpathlen ∧
  a.no_trunc = b.no_trunc ∧ a.chown_restricted = b.chown_restricted ∧
  a.case_insensitive = b.case_insensitive ∧ a.case_preserving = b.case_preserving ∧
  a.lock_support = b.lock_support ∧ a.lock_support_owner = b.lock_support_owner ∧
  a.lock_support_async_block = b.lock_support_async_block ∧
  a.named_attr = b.named_attr ∧ a.unique_handles = b.unique_handles ∧
  a.lease_time = b.lease_time ∧ a.acl_support = b.acl_support ∧
  a.homogenous = b.homogenous ∧ a.supported_attrs = b.supported_attrs

/-- The four ranged members of a descriptor are within the ranges that
`zfs_params` declares for their keys. -/
def within_declared_ranges (d : fsal_staticfsinfo_t) : Prop :=
  (512 ≤ d.maxread ∧ d.maxread ≤ 1048576) ∧
  (512 ≤ d.maxwrite ∧ d.maxwrite ≤ 1048576) ∧
  (0 ≤ d.umask ∧ d.umask ≤ 0o777) ∧
  (0 ≤ d.xattr_access_rights ∧ d.xattr_access_rights ≤ 0o777)

/-- The default of a schema item lies within the bounds of the item. -/
def default_in_range (item : config_item) : Bool :=
  match item.type with
  | item_type.CONFIG_BOOL _ _ => true
  | item_type.CONFIG_UINT32 minval maxval dflt _ => decide (minval ≤ dflt) && decide (dflt ≤ maxval)
  | item_type.CONFIG_MODE minval maxval dflt _ => decide (minval ≤ dflt) && decide (dflt ≤ maxval)

/-- The keys of `zfs_params`, in table order. -/
def zfs_keys : List String :=
  [ "link_support", "symlink_support", "cansettime", "maxread", "maxwrite", "umask",
    "auth_xdev_export", "xattr_access_rights" ]

/-! Properties of `init_config` for every loader -/

section init_config_any_loader

variable {C H I : Type}
variable (load : C → config_block → fsal_staticfsinfo_t → Bool → Int × fsal_staticfsinfo_t)
variable (k : build_constants) (c : C) (w : World H I)

/-- The status of `init_config` is decided by the sign of the loader code. -/
theorem init_config_status :
    (init_config load k c w).1 =
      if (load c zfs_param w.default_zfs_info true).1 < 0
      then fsalstat fsal_errors_t.ERR_FSAL_INVAL 0
      else fsalstat fsal_errors_t.ERR_FSAL_NO_ERROR 0 := by
  unfold init_config
  by_cases h : (load c zfs_param w.default_zfs_info true).1 < 0 <;> simp [h]

/-- The module descriptor after `init_config` is what the loader made of a
copy of `default_zfs_info`. -/
theorem init_config_fs_info :
    (init_config load k c w).2.ZFS.fs_info =
      (load c zfs_param w.default_zfs_info true).2 := by
  unfold init_config
  by_cases h : (load c zfs_param w.default_zfs_info true).1 < 0 <;> simp [h]

/-- The global `default_zfs_info` is not written by `init_config`. -/
theorem init_config_default_zfs_info :
    (init_config load k c w).2.default_zfs_info = w.default_zfs_info := by
  unfold init_config
  by_cases h : (load c zfs_param w.default_zfs_info true).1 < 0 <;> simp [h]

end init_config_any_loader

/-! Properties of the modelled loader -/

theorem set_bool_same_unconfigured (mem : bool_member) (b : Bool) (d : fsal_staticfsinfo_t) :
    same_unconfigured (set_bool mem b d) d := by
  cases mem <;> simp [set_bool, same_unconfigured]

theorem set_ui32_same_unconfigured (mem : ui32_member) (n : Nat) (d : fsal_staticfsinfo_t) :
    same_unconfigured (set_ui32 mem n d) d := by
  cases mem <;> simp [set_ui32, same_unconfigured]

theorem set_mode_same_unconfigured (mem : mode_member) (n : Nat) (d : fsal_staticfsinfo_t) :
    same_unconfigured (set_mode mem n d) d := by
  cases mem <;> simp [set_mode, same_unconfigured]

theorem same_unconfigured_refl (d : fsal_staticfsinfo_t) : same_unconfigured d d := by
  simp [same_unconfigured]

theorem same_unconfigured_trans {a b c : fsal_staticfsinfo_t}
    (hab : same_unconfigured a b) (hbc : same_unconfigured b c) : same_unconfigured a c := by
  unfold same_unconfigured at *
  obtain ⟨h1, h2, h3, h4, h5, h6, h7, h8, h9, h10, h11, h12, h13, h14, h15, h16, h17⟩ := hab
  obtain ⟨g1, g2, g3, g4, g5, g6, g7, g8, g9, g10, g11, g12, g13, g14, g15, g16, g17⟩ := hbc
  exact ⟨h1.trans g1, h2.trans g2, h3.trans g3, h4.trans g4, h5.trans g5, h6.trans g6,
    h7.trans g7, h8.trans g8, h9.trans g9, h10.trans g10, h11.trans g11, h12.trans g12,
    h13.trans g13, h14.trans g14, h15.trans g15, h16.trans g16, h17.trans g17⟩

theorem set_default_same_unconfigured (d : fsal_staticfsinfo_t) (item : config_item) :
    same_unconfigured (set_default d item) d := by
  unfold set_default
  cases item.type with
  | CONFIG_BOOL dflt mem => exact set_bool_same_unconfigured mem dflt d
  | CONFIG_UINT32 mn mx dflt mem => exact set_ui32_same_unconfigured mem dflt d
  | CONFIG_MODE mn mx dflt mem => exact set_mode_same_unconfigured mem dflt d

theorem foldl_set_default_same_unconfigured (params : List config_item)
    (d : fsal_staticfsinfo_t) :
    same_unconfigured (params.foldl set_default d) d := by
  induction params generalizing d with
  | nil => exact same_unconfigured_refl d
  | cons item rest ih =>
    simp only [List.foldl_cons]
    exact same_unconfigured_trans (ih (set_default d item)) (set_default_same_unconfigured d item)

theorem apply_override_same_unconfigured (params : List config_item)
    (d d1 : fsal_staticfsinfo_t) (entry : String × conf_value)
    (h : apply_override params d entry = Except.ok d1) : same_unconfigured d1 d := by
  unfold apply_override at h
  split at h
  · cases h
  · split at h
    · cases h; exact set_bool_same_unconfigured _ _ d
    · split at h
      · cases h; exact set_ui32_same_unconfigured _ _ d
      · cases h
    · split at h
      · cases h; exact set_mode_same_unconfigured _ _ d
      · cases h
    · cases h

theorem apply_overrides_same_unconfigured (params : List config_item)
    (ov : config_file_t) (d d1 : fsal_staticfsinfo_t)
    (h : apply_overrides params d ov = Except.ok d1) : same_unconfigured d1 d := by
  induction ov generalizing d with
  | nil =>
    simp only [apply_overrides] at h
    cases h
    exact same_unconfigured_refl _
  | cons entry rest ih =>
    simp only [apply_overrides] at h
    cases hstep : apply_override params d entry with
    | error e => rw [hstep] at h; cases h
    | ok d2 =>
      rw [hstep] at h
      exact same_unconfigured_trans (ih d2 h)
        (apply_override_same_unconfigured params d d2 entry hstep)

/-- The modelled loader writes only members that are targets of schema
items. -/
theorem load_config_from_parse_same_unconfigured (config : config_file_t)
    (conf_blk : config_block) (param : fsal_staticfsinfo_t) (u : Bool) :
    same_unconfigured (load_config_from_parse config conf_blk param u).2 param := by
  unfold load_config_from_parse bind
  cases h : apply_overrides conf_blk.params (conf_blk.params.foldl set_default param) config with
  | error e => exact same_unconfigured_refl param
  | ok d =>
    exact same_unconfigured_trans
      (apply_overrides_same_unconfigured conf_blk.params config _ d h)
      (foldl_set_default_same_unconfigured conf_blk.params param)

/-- An item found in a table is a member of the table and has the key. -/
theorem find_item_some {params : List config_item} {name : String} {item : config_item}
    (h : find_item params name = some item) : item ∈ params ∧ item.name = name := by
  unfold find_item at h
  refine ⟨List.mem_of_find?_eq_some h, ?_⟩
  have := List.find?_some h
  simpa using this

/-- The members of `zfs_params`. -/
theorem mem_zfs_params {item : config_item} (h : item ∈ zfs_params) :
    item = CONF_ITEM_BOOL "link_support" true bool_member.link_support ∨
    item = CONF_ITEM_BOOL "symlink_support" true bool_member.symlink_support ∨
    item = CONF_ITEM_BOOL "cansettime" true bool_member.cansettime ∨
    item = CONF_ITEM_UI32 "maxread" 512 (1024 * 1024) 1000000 ui32_member.maxread ∨
    item = CONF_ITEM_UI32 "maxwrite" 512 (1024 * 1024) 1000000 ui32_member.maxwrite ∨
    item = CONF_ITEM_MODE "umask" 0 0o777 0 mode_member.umask ∨
    item = CONF_ITEM_BOOL "auth_xdev_export" false bool_member.auth_exportpath_xdev ∨
    item = CONF_ITEM_MODE "xattr_access_rights" 0 0o777 0o400
      mode_member.xattr_access_rights := by
  simpa [zfs_params] using h

/-- A successful override on `zfs_params` keeps the ranged members in range. -/
theorem apply_override_within (d d1 : fsal_staticfsinfo_t) (entry : String × conf_value)
    (hd : within_declared_ranges d)
    (h : apply_override zfs_params d entry = Except.ok d1) : within_declared_ranges d1 := by
  unfold apply_override at h
  cases hf : find_item zfs_params entry.1 with
  | none => rw [hf] at h; cases h
  | some item =>
    rw [hf] at h
    have hmem := (find_item_some hf).1
    obtain ⟨v1, v2⟩ := entry
    unfold within_declared_ranges at *
    rcases mem_zfs_params hmem with e | e | e | e | e | e | e | e <;> subst e <;>
      cases v2 <;>
      simp only [CONF_ITEM_BOOL, CONF_ITEM_UI32, CONF_ITEM_MODE] at h <;>
      first
        | (cases h; done)
        | (cases h; simp only [set_bool]; exact hd)
        | (split at h
           · cases h
             simp only [set_ui32, set_mode]
             omega
           · cases h)

/-- Writing the defaults of `zfs_params` puts every ranged member in range. -/
theorem defaults_within (d : fsal_staticfsinfo_t) :
    within_declared_ranges (zfs_params.foldl set_default d) := by
  simp [zfs_params, CONF_ITEM_BOOL, CONF_ITEM_UI32, CONF_ITEM_MODE, set_default, set_bool,
    set_ui32, set_mode, within_declared_ranges]

theorem apply_overrides_within (ov : config_file_t) (d d1 : fsal_staticfsinfo_t)
    (hd : within_declared_ranges d)
    (h : apply_overrides zfs_params d ov = Except.ok d1) : within_declared_ranges d1 := by
  induction ov generalizing d with
  | nil =>
    simp only [apply_overrides] at h
    cases h
    exact hd
  | cons entry rest ih =>
    simp only [apply_overrides] at h
    cases hstep : apply_override zfs_params d entry with
    | error e => rw [hstep] at h; cases h
    | ok d2 =>
      rw [hstep] at h
      exact ih d2 (apply_override_within d d2 entry hd hstep) h

/-- An overlay with an entry that no descriptor accepts is rejected. -/
theorem apply_overrides_rejects (params : List config_item) (ov : config_file_t)
    (entry : String × conf_value) (hmem : entry ∈ ov)
    (hbad : ∀ d, ∃ e, apply_override params d entry = Except.error e)
    (d : fsal_staticfsinfo_t) :
    ∃ e, apply_overrides params d ov = Except.error e := by
  induction ov generalizing d with
  | nil => cases hmem
  | cons first rest ih =>
    simp only [apply_overrides]
    cases hstep : apply_override params d first with
    | error e => exact ⟨e, rfl⟩
    | ok d2 =>
      rcases List.mem_cons.mp hmem with heq | hrest
      · subst heq
        obtain ⟨e, he⟩ := hbad d
        rw [he] at hstep
        cases hstep
      · exact ih hrest d2

/-- The modelled loader returns a negative code exactly when the binder
rejects the overlay. -/
theorem load_config_from_parse_code (config : config_file_t) (conf_blk : config_block)
    (param : fsal_staticfsinfo_t) (u : Bool) :
    ((load_config_from_parse config conf_blk param u).1 < 0 ↔
      ∃ e, bind conf_blk.params param config = Except.error e) := by
  unfold load_config_from_parse
  cases h : bind conf_blk.params param config with
  | error e => simp
  | ok d => simp

/-- A key has an item in `zfs_params` exactly when it is one of the eight
keys. -/
theorem find_item_zfs_params_none (name : String) :
    find_item zfs_params name = none ↔ name ∉ zfs_keys := by
  simp only [find_item, List.find?_eq_none, zfs_params, zfs_keys, CONF_ITEM_BOOL,
    CONF_ITEM_UI32, CONF_ITEM_MODE]
  simp
  constructor
  · rintro ⟨h1, h2, h3, h4, h5, h6, h7, h8⟩
    exact ⟨fun h => h1 h.symm, fun h => h2 h.symm, fun h => h3 h.symm, fun h => h4 h.symm,
      fun h => h5 h.symm, fun h => h6 h.symm, fun h => h7 h.symm, fun h => h8 h.symm⟩
  · rintro ⟨h1, h2, h3, h4, h5, h6, h7, h8⟩
    exact ⟨fun h => h1 h.symm, fun h => h2 h.symm, fun h => h3 h.symm, fun h => h4 h.symm,
      fun h => h5 h.symm, fun h => h6 h.symm, fun h => h7 h.symm, fun h => h8 h.symm⟩

/-- A descriptor within the declared ranges passes the range check of every
item of `zfs_params`. -/
theorem within_all_range_ok (d : fsal_staticfsinfo_t) (hd : within_declared_ranges d) :
    zfs_params.all (fun item => range_ok item d) = true := by
  unfold within_declared_ranges at hd
  obtain ⟨⟨h1, h2⟩, ⟨h3, h4⟩, ⟨h5, h6⟩, ⟨h7, h8⟩⟩ := hd
  simp [zfs_params, CONF_ITEM_BOOL, CONF_ITEM_UI32, CONF_ITEM_MODE, range_ok, get_ui32,
    get_mode]
  omega

/-- The result of the modelled loader on `zfs_param` when it accepts. -/
theorem load_config_from_parse_within (config : config_file_t)
    (param : fsal_staticfsinfo_t) (u : Bool)
    (h : ¬ (load_config_from_parse config zfs_param param u).1 < 0) :
    within_declared_ranges (load_config_from_parse config zfs_param param u).2 := by
  unfold load_config_from_parse bind at *
  cases hb : apply_overrides zfs_param.params (zfs_param.params.foldl set_default param)
      config with
  | error e => rw [hb] at h; simp at h
  | ok d =>
    simp only
    exact apply_overrides_within config _ d (defaults_within param) hb

/-! The claims -/

/-- C1: an overlay that sets `maxread` or `maxwrite` to a value outside
[512, 1048576] makes `init_config` (with the loader modelled from the spec on
the table `zfs_params`) return the status `ERR_FSAL_INVAL`, never the success
status: the loader code is negative, so no clamped value is stored as part of a
successful result. -/
theorem C1_out_of_range_rejected {H I : Type} (k : build_constants) (w : World H I)
    (ov : config_file_t) (key : String) (v : Int)
    (hkey : key = "maxread" ∨ key = "maxwrite")
    (hset : (key, conf_value.num v) ∈ ov)
    (hout : v < 512 ∨ 1048576 < v) :
    (init_config load_config_from_parse k ov w).1 = fsalstat fsal_errors_t.ERR_FSAL_INVAL 0 ∧
    (init_config load_config_from_parse k ov w).1 ≠
      fsalstat fsal_errors_t.ERR_FSAL_NO_ERROR 0 ∧
    (load_config_from_parse ov zfs_param w.default_zfs_info true).1 < 0 := by
  have hbad : ∀ d, ∃ e, apply_override zfs_params d (key, conf_value.num v) = Except.error e := by
    intro d
    refine ⟨ConfigError.OutOfRange, ?_⟩
    rcases hkey with hk | hk <;> subst hk
    · have hf : find_item zfs_params "maxread" =
          some (CONF_ITEM_UI32 "maxread" 512 (1024 * 1024) 1000000 ui32_member.maxread) := by
        decide
      simp only [apply_override, hf, CONF_ITEM_UI32]
      rw [if_neg]
      push_cast
      omega
    · have hf : find_item zfs_params "maxwrite" =
          some (CONF_ITEM_UI32 "maxwrite" 512 (1024 * 1024) 1000000 ui32_member.maxwrite) := by
        decide
      simp only [apply_override, hf, CONF_ITEM_UI32]
      rw [if_neg]
      push_cast
      omega
  have hrc : (load_config_from_parse ov zfs_param w.default_zfs_info true).1 < 0 :=
    (load_config_from_parse_code ov zfs_param w.default_zfs_info true).mpr
      (apply_overrides_rejects zfs_params ov _ hset hbad _)
  have hst := init_config_status load_config_from_parse k ov w
  rw [if_pos hrc] at hst
  refine ⟨hst, ?_, hrc⟩
  rw [hst]
  decide

/-- C1 at the overlay `{maxread: 2000000}` on the initial state. -/
theorem C1_out_of_range_rejected_witness :
    (init_config load_config_from_parse sample_constants
        [("maxread", conf_value.num 2000000)] (initial_world sample_constants)).1 =
      fsalstat fsal_errors_t.ERR_FSAL_INVAL 0 :=
  (C1_out_of_range_rejected sample_constants (initial_world sample_constants)
    [("maxread", conf_value.num 2000000)] "maxread" 2000000
    (Or.inl rfl) (List.mem_singleton.mpr rfl) (Or.inr (by decide))).1

/-- C2: whenever `init_config` (with the loader modelled from the spec)
returns `ERR_FSAL_NO_ERROR`, the module descriptor has
512 <= maxread <= 1048576, 512 <= maxwrite <= 1048576, 0 <= umask <= 0777 and
0 <= xattr_access_rights <= 0777, and it passes the range check of every item
of `zfs_params`. -/
theorem C2_success_within_ranges {H I : Type} (k : build_constants) (w : World H I)
    (ov : config_file_t)
    (hok : (init_config load_config_from_parse k ov w).1 =
      fsalstat fsal_errors_t.ERR_FSAL_NO_ERROR 0) :
    (512 ≤ (init_config load_config_from_parse k ov w).2.ZFS.fs_info.maxread ∧
      (init_config load_config_from_parse k ov w).2.ZFS.fs_info.maxread ≤ 1048576) ∧
    (512 ≤ (init_config load_config_from_parse k ov w).2.ZFS.fs_info.maxwrite ∧
      (init_config load_config_from_parse k ov w).2.ZFS.fs_info.maxwrite ≤ 1048576) ∧
    (0 ≤ (init_config load_config_from_parse k ov w).2.ZFS.fs_info.umask ∧
      (init_config load_config_from_parse k ov w).2.ZFS.fs_info.umask ≤ 0o777) ∧
    (0 ≤ (init_config load_config_from_parse k ov w).2.ZFS.fs_info.xattr_access_rights ∧
      (init_config load_config_from_parse k ov w).2.ZFS.fs_info.xattr_access_rights ≤ 0o777) ∧
    zfs_params.all
      (fun item => range_ok item (init_config load_config_from_parse k ov w).2.ZFS.fs_info) =
      true := by
  have hst := init_config_status load_config_from_parse k ov w
  have hrc : ¬ (load_config_from_parse ov zfs_param w.default_zfs_info true).1 < 0 := by
    intro hneg
    rw [if_pos hneg, hok] at hst
    revert hst
    decide
  have hw := load_config_from_parse_within ov w.default_zfs_info true hrc
  rw [← init_config_fs_info load_config_from_parse k ov w] at hw
  have hall := within_all_range_ok _ hw
  unfold within_declared_ranges at hw
  obtain ⟨h1, h2, h3, h4⟩ := hw
  exact ⟨h1, h2, h3, h4, hall⟩

/-- C2 at the overlay `{maxread: 4096, umask: 022}` on the initial state. -/
theorem C2_success_within_ranges_witness :
    (init_config load_config_from_parse sample_constants
        [("maxread", conf_value.num 4096), ("umask", conf_value.num 0o022)]
        (initial_world sample_constants)).1 = fsalstat fsal_errors_t.ERR_FSAL_NO_ERROR 0 ∧
    (init_config load_config_from_parse sample_constants
        [("maxread", conf_value.num 4096), ("umask", conf_value.num 0o022)]
        (initial_world sample_constants)).2.ZFS.fs_info.maxread ≤ 1048576 :=
  ⟨by decide,
   (C2_success_within_ranges sample_constants (initial_world sample_constants)
      [("maxread", conf_value.num 4096), ("umask", conf_value.num 0o022)] (by decide)).1.2⟩

/-- C3: for every loader, configuration and state, `init_config` returns
(`ERR_FSAL_INVAL`, 0) if and only if its call of `load_config_from_parse`
returns a negative code, returns (`ERR_FSAL_NO_ERROR`, 0) if and only if the
code is not negative, and returns one of these two statuses in every case. -/
theorem C3_status_follows_loader_code {C H I : Type}
    (load : C → config_block → fsal_staticfsinfo_t → Bool → Int × fsal_staticfsinfo_t)
    (k : build_constants) (c : C) (w : World H I) :
    ((init_config load k c w).1 = fsalstat fsal_errors_t.ERR_FSAL_INVAL 0 ↔
      (load c zfs_param w.default_zfs_info true).1 < 0) ∧
    ((init_config load k c w).1 = fsalstat fsal_errors_t.ERR_FSAL_NO_ERROR 0 ↔
      ¬ (load c zfs_param w.default_zfs_info true).1 < 0) ∧
    ((init_config load k c w).1 = fsalstat fsal_errors_t.ERR_FSAL_INVAL 0 ∨
      (init_config load k c w).1 = fsalstat fsal_errors_t.ERR_FSAL_NO_ERROR 0) := by
  have hst := init_config_status load k c w
  have hne : fsalstat fsal_errors_t.ERR_FSAL_NO_ERROR 0 ≠
      fsalstat fsal_errors_t.ERR_FSAL_INVAL 0 := by decide
  by_cases hrc : (load c zfs_param w.default_zfs_info true).1 < 0
  · rw [if_pos hrc] at hst
    rw [hst]
    exact ⟨⟨fun _ => hrc, fun _ => rfl⟩, ⟨fun h => absurd h.symm hne, fun h => absurd hrc h⟩,
      Or.inl rfl⟩
  · rw [if_neg hrc] at hst
    rw [hst]
    exact ⟨⟨fun h => absurd h hne, fun h => absurd h hrc⟩, ⟨fun _ => hrc, fun _ => rfl⟩,
      Or.inr rfl⟩

/-- C4: `zfs_params` has exactly the eight keys `link_support`,
`symlink_support`, `cansettime`, `maxread`, `maxwrite`, `umask`,
`auth_xdev_export` and `xattr_access_rights`; the four boolean keys have
boolean items, `maxread` and `maxwrite` unsigned items with range
[512, 1048576], `umask` and `xattr_access_rights` mode items with range
[0, 0777]; the block `zfs_param` hands this table to the loader; the key lookup
finds no item exactly for the names outside the eight, and the modelled loader
answers an override with `UnknownKey` exactly for those names. -/
theorem C4_schema_keys_types_ranges :
    zfs_params.map (fun item => item.name) = zfs_keys ∧
    zfs_keys.length = 8 ∧
    zfs_param.params = zfs_params ∧
    (find_item zfs_params "link_support").map (fun item => item.type) =
      some (item_type.CONFIG_BOOL true bool_member.link_support) ∧
    (find_item zfs_params "symlink_support").map (fun item => item.type) =
      some (item_type.CONFIG_BOOL true bool_member.symlink_support) ∧
    (find_item zfs_params "cansettime").map (fun item => item.type) =
      some (item_type.CONFIG_BOOL true bool_member.cansettime) ∧
    (find_item zfs_params "maxread").map (fun item => item.type) =
      some (item_type.CONFIG_UINT32 512 1048576 1000000 ui32_member.maxread) ∧
    (find_item zfs_params "maxwrite").map (fun item => item.type) =
      some (item_type.CONFIG_UINT32 512 1048576 1000000 ui32_member.maxwrite) ∧
    (find_item zfs_params "umask").map (fun item => item.type) =
      some (item_type.CONFIG_MODE 0 0o777 0 mode_member.umask) ∧
    (find_item zfs_params "auth_xdev_export").map (fun item => item.type) =
      some (item_type.CONFIG_BOOL false bool_member.auth_exportpath_xdev) ∧
    (find_item zfs_params "xattr_access_rights").map (fun item => item.type) =
      some (item_type.CONFIG_MODE 0 0o777 0o400 mode_member.xattr_access_rights) ∧
    (∀ name : String, find_item zfs_params name = none ↔ name ∉ zfs_keys) ∧
    (∀ (name : String) (v : conf_value) (d : fsal_staticfsinfo_t),
      apply_override zfs_params d (name, v) = Except.error ConfigError.UnknownKey ↔
        name ∉ zfs_keys) := by
  refine ⟨by decide, by decide, rfl, by decide, by decide, by decide, by decide, by decide,
    by decide, by decide, by decide, find_item_zfs_params_none, ?_⟩
  intro name v d
  constructor
  · intro h
    rw [← find_item_zfs_params_none]
    cases hf : find_item zfs_params name with
    | none => rfl
    | some item =>
      exfalso
      unfold apply_override at h
      simp only [hf] at h
      split at h
      · cases h
      · split at h <;> cases h
      · split at h <;> cases h
      · cases h
  · intro h
    have hf := (find_item_zfs_params_none name).mpr h
    simp [apply_override, hf]

/-- C5: for every loader, configuration and state, `init_config` leaves the
global `default_zfs_info` with the value it had before the call, on success and
on failure; the descriptor given to the loader is a copy of it, and what the
loader makes of that copy is stored in the module descriptor `fs_info`. -/
theorem C5_defaults_not_mutated {C H I : Type}
    (load : C → config_block → fsal_staticfsinfo_t → Bool → Int × fsal_staticfsinfo_t)
    (k : build_constants) (c : C) (w : World H I) :
    (init_config load k c w).2.default_zfs_info = w.default_zfs_info ∧
    (init_config load k c w).2.ZFS.fs_info =
      (load c zfs_param w.default_zfs_info true).2 ∧
    (init_config load k c w).2.host = w.host ∧
    (init_config load k c w).2.stderr = w.stderr := by
  refine ⟨init_config_default_zfs_info load k c w, init_config_fs_info load k c w, ?_, ?_⟩
  · unfold init_config
    by_cases h : (load c zfs_param w.default_zfs_info true).1 < 0 <;> simp [h]
  · unfold init_config
    by_cases h : (load c zfs_param w.default_zfs_info true).1 < 0 <;> simp [h]

/-- C9: for every loader (a function, hence deterministic), configuration and
state, the status and the whole resulting state of `init_config` are the same
for any two prior values of the module descriptor `fs_info`; and a second call
with the same configuration returns the same status and leaves the same
descriptor as the first. -/
theorem C9_independent_of_prior_descriptor {C H I : Type}
    (load : C → config_block → fsal_staticfsinfo_t → Bool → Int × fsal_staticfsinfo_t)
    (k : build_constants) (c : C) (w : World H I) (prior1 prior2 : fsal_staticfsinfo_t) :
    init_config load k c { w with ZFS := { w.ZFS with fs_info := prior1 } } =
      init_config load k c { w with ZFS := { w.ZFS with fs_info := prior2 } } ∧
    (init_config load k c (init_config load k c w).2).1 = (init_config load k c w).1 ∧
    (init_config load k c (init_config load k c w).2).2.ZFS.fs_info =
      (init_config load k c w).2.ZFS.fs_info := by
  refine ⟨rfl, ?_, ?_⟩
  · rw [init_config_status, init_config_status, init_config_default_zfs_info]
  · rw [init_config_fs_info, init_config_fs_info, init_config_default_zfs_info]

/-- When registration fails, `zfs_load` writes the message to `stderr` and
nothing else: the state is the one `register_fsal` left. -/
theorem zfs_load_failed {H I : Type}
    (register : H → fsal_module → String → Nat → Nat → Int × H × fsal_module)
    (initp : I → I) (k : build_constants) (w : World H I)
    (hfail : (register w.host w.ZFS.fsal myname k.FSAL_MAJOR_VERSION
      k.FSAL_MINOR_VERSION).1 ≠ 0) :
    zfs_load register initp k w =
      some { host := (register w.host w.ZFS.fsal myname k.FSAL_MAJOR_VERSION
               k.FSAL_MINOR_VERSION).2.1,
             default_zfs_info := w.default_zfs_info,
             ZFS := { fsal := (register w.host w.ZFS.fsal myname k.FSAL_MAJOR_VERSION
                        k.FSAL_MINOR_VERSION).2.2,
                      fs_info := w.ZFS.fs_info,
                      fsal_info := w.ZFS.fsal_info },
             log := w.log,
             stderr := w.stderr ++ ["ZFS module failed to register"] } := by
  unfold zfs_load
  simp [hfail]

/-- The modelled `register_fsal` leaves host and handle as they were when it
returns a non-zero code. -/
theorem register_fsal_failed (host : List String) (hdl : fsal_module) (name : String)
    (major minor : Nat) (hfail : (register_fsal host hdl name major minor).1 ≠ 0) :
    (register_fsal host hdl name major minor).2 = (host, hdl) := by
  unfold register_fsal at *
  by_cases hin : name ∈ host
  · simp [hin]
  · simp [hin] at hfail

/-- C6: for every `register_fsal` and `init_fsal_parameters`, when
`register_fsal` returns 0 and has installed an operation table, `zfs_load`
completes, and in the resulting operation table `create_export` is
`zfs_create_export`, `init_config` is the ZFS `init_config`, and every other
entry is the one `register_fsal` installed. -/
theorem C6_load_binds_two_methods {H I : Type}
    (register : H → fsal_module → String → Nat → Nat → Int × H × fsal_module)
    (initp : I → I) (k : build_constants) (w : World H I) (installed : fsal_ops)
    (hreg : (register w.host w.ZFS.fsal myname k.FSAL_MAJOR_VERSION
      k.FSAL_MINOR_VERSION).1 = 0)
    (hops : (register w.host w.ZFS.fsal myname k.FSAL_MAJOR_VERSION
      k.FSAL_MINOR_VERSION).2.2.ops = some installed) :
    ∃ (w1 : World H I) (table : fsal_ops),
      zfs_load register initp k w = some w1 ∧
      w1.ZFS.fsal.ops = some table ∧
      table.create_export = fsal_fn.zfs_create_export ∧
      table.init_config = fsal_fn.init_config ∧
      table.other = installed.other := by
  refine ⟨{ host := (register w.host w.ZFS.fsal myname k.FSAL_MAJOR_VERSION
                      k.FSAL_MINOR_VERSION).2.1,
            default_zfs_info := w.default_zfs_info,
            ZFS := { fsal := { ops := some { create_export := fsal_fn.zfs_create_export,
                                             init_config := fsal_fn.init_config,
                                             other := installed.other } },
                     fs_info := w.ZFS.fs_info,
                     fsal_info := initp w.ZFS.fsal_info },
            log := w.log,
            stderr := w.stderr },
          { create_export := fsal_fn.zfs_create_export,
            init_config := fsal_fn.init_config,
            other := installed.other }, ?_, rfl, rfl, rfl, rfl⟩
  unfold zfs_load
  simp only [hreg, hops]
  simp

/-- C6 on the initial state with the modelled `register_fsal`. -/
theorem C6_load_binds_two_methods_witness :
    ∃ (w1 : World (List String) Nat) (table : fsal_ops),
      zfs_load register_fsal (fun _ => 0) sample_constants (initial_world sample_constants) =
        some w1 ∧
      w1.ZFS.fsal.ops = some table ∧
      table.create_export = fsal_fn.zfs_create_export ∧
      table.init_config = fsal_fn.init_config ∧
      table.other = def_fsal_ops.other :=
  C6_load_binds_two_methods register_fsal (fun _ => 0) sample_constants
    (initial_world sample_constants) def_fsal_ops (by decide) (by rfl)

/-- C7: with `register_fsal` modelled from the spec, whenever it returns a
non-zero code `zfs_load` completes and leaves the operation table, the
descriptor `fs_info`, the init parameters `fsal_info`, the host registry and
`default_zfs_info` exactly as they were before the call. -/
theorem C7_failed_registration_mutates_nothing {I : Type} (initp : I → I)
    (k : build_constants) (w : World (List String) I)
    (hfail : (register_fsal w.host w.ZFS.fsal myname k.FSAL_MAJOR_VERSION
      k.FSAL_MINOR_VERSION).1 ≠ 0) :
    ∃ w1 : World (List String) I,
      zfs_load register_fsal initp k w = some w1 ∧
      w1.ZFS.fsal.ops = w.ZFS.fsal.ops ∧
      w1.ZFS.fs_info = w.ZFS.fs_info ∧
      w1.ZFS.fsal_info = w.ZFS.fsal_info ∧
      w1.host = w.host ∧
      w1.default_zfs_info = w.default_zfs_info := by
  have hleft := register_fsal_failed w.host w.ZFS.fsal myname k.FSAL_MAJOR_VERSION
    k.FSAL_MINOR_VERSION hfail
  refine ⟨_, zfs_load_failed register_fsal initp k w hfail, ?_, rfl, rfl, ?_, rfl⟩
  · simp only [hleft]
  · simp only [hleft]

/-- C7 on the state in which the module is already registered. -/
theorem C7_failed_registration_mutates_nothing_witness :
    ∃ w1 : World (List String) Nat,
      zfs_load register_fsal (fun _ => 0) sample_constants
        { initial_world sample_constants with
          host := ["ZFS"],
          ZFS := { fsal := { ops := some def_fsal_ops }, fs_info := zero_fsinfo,
                   fsal_info := 7 } } = some w1 ∧
      w1.ZFS.fs_info = zero_fsinfo ∧ w1.ZFS.fsal_info = 7 ∧ w1.host = ["ZFS"] := by
  obtain ⟨w1, h1, _, h3, h4, h5, _⟩ :=
    C7_failed_registration_mutates_nothing (fun _ => 0) sample_constants
      { initial_world sample_constants with
        host := ["ZFS"],
        ZFS := { fsal := { ops := some def_fsal_ops }, fs_info := zero_fsinfo,
                 fsal_info := 7 } } (by decide)
  exact ⟨w1, h1, h3, h4, h5⟩

/-- C8: for every loader that writes only members that are targets of schema
items, every configuration and every state, after `init_config` (whatever
status it returns, so after every successful call) each member of the module
descriptor without an item in `zfs_params` equals the member of
`default_zfs_info`; when `default_zfs_info` holds its initial
value these are maxfilesize 2^64-1, maxlink 1024, maxnamelen, maxpathlen,
no_trunc, chown_restricted, case_preserving, named_attr, unique_handles and
homogenous true, case_insensitive and the three lock members false, lease_time
10 s, acl_support ALLOW and the supported attribute mask. -/
theorem C8_unconfigured_members_are_defaults {C H I : Type}
    (load : C → config_block → fsal_staticfsinfo_t → Bool → Int × fsal_staticfsinfo_t)
    (hframe : ∀ c b d u, same_unconfigured (load c b d u).2 d)
    (k : build_constants) (c : C) (w : World H I) :
    same_unconfigured (init_config load k c w).2.ZFS.fs_info w.default_zfs_info ∧
    (w.default_zfs_info = default_zfs_info k →
      (init_config load k c w).2.ZFS.fs_info.maxfilesize = 2 ^ 64 - 1 ∧
      (init_config load k c w).2.ZFS.fs_info.maxlink = 1024 ∧
      (init_config load k c w).2.ZFS.fs_info.maxnamelen = k.MAXNAMLEN % 2 ^ 32 ∧
      (init_config load k c w).2.ZFS.fs_info.maxpathlen = k.MAXPATHLEN % 2 ^ 32 ∧
      (init_config load k c w).2.ZFS.fs_info.no_trunc = true ∧
      (init_config load k c w).2.ZFS.fs_info.chown_restricted = true ∧
      (init_config load k c w).2.ZFS.fs_info.case_insensitive = false ∧
      (init_config load k c w).2.ZFS.fs_info.case_preserving = true ∧
      (init_config load k c w).2.ZFS.fs_info.lock_support = false ∧
      (init_config load k c w).2.ZFS.fs_info.lock_support_owner = false ∧
      (init_config load k c w).2.ZFS.fs_info.lock_support_async_block = false ∧
      (init_config load k c w).2.ZFS.fs_info.named_attr = true ∧
      (init_config load k c w).2.ZFS.fs_info.unique_handles = true ∧
      (init_config load k c w).2.ZFS.fs_info.lease_time = { tv_sec := 10, tv_nsec := 0 } ∧
      (init_config load k c w).2.ZFS.fs_info.acl_support = k.FSAL_ACLSUPPORT_ALLOW ∧
      (init_config load k c w).2.ZFS.fs_info.homogenous = true ∧
      (init_config load k c w).2.ZFS.fs_info.supported_attrs =
        k.ZFS_SUPPORTED_ATTRIBUTES % 2 ^ 64) := by
  have hsame : same_unconfigured (init_config load k c w).2.ZFS.fs_info w.default_zfs_info := by
    rw [init_config_fs_info]
    exact hframe c zfs_param w.default_zfs_info true
  refine ⟨hsame, ?_⟩
  intro hdef
  rw [hdef] at hsame
  unfold same_unconfigured at hsame
  obtain ⟨h1, h2, h3, h4, h5, h6, h7, h8, h9, h10, h11, h12, h13, h14, h15, h16, h17⟩ := hsame
  exact ⟨h1, h2, h3, h4, h5, h6, h7, h8, h9, h10, h11, h12, h13, h14, h15, h16, h17⟩

/-- C8 with the modelled loader at the overlay `{maxread: 4096}` on the
initial state. -/
theorem C8_unconfigured_members_are_defaults_witness :
    (init_config load_config_from_parse sample_constants [("maxread", conf_value.num 4096)]
      (initial_world sample_constants)).1 = fsalstat fsal_errors_t.ERR_FSAL_NO_ERROR 0 ∧
    same_unconfigured
      (init_config load_config_from_parse sample_constants [("maxread", conf_value.num 4096)]
        (initial_world sample_constants)).2.ZFS.fs_info
      (default_zfs_info sample_constants) ∧
    (init_config load_config_from_parse sample_constants [("maxread", conf_value.num 4096)]
      (initial_world sample_constants)).2.ZFS.fs_info.maxlink = 1024 :=
  ⟨by decide,
   (C8_unconfigured_members_are_defaults load_config_from_parse
      load_config_from_parse_same_unconfigured sample_constants
      [("maxread", conf_value.num 4096)] (initial_world sample_constants)).1,
   ((C8_unconfigured_members_are_defaults load_config_from_parse
      load_config_from_parse_same_unconfigured sample_constants
      [("maxread", conf_value.num 4096)] (initial_world sample_constants)).2 rfl).2.1⟩

/-- C10: every item of `zfs_params` has its default within its own bounds
(512 <= 1000000 <= 1024*1024 for `maxread` and `maxwrite`, 0 <= 0 <= 0777 for
`umask`, 0 <= 0400 <= 0777 for `xattr_access_rights`), and with the empty
overlay `init_config` (with the loader modelled from the spec) succeeds with
these defaults in the descriptor, which passes the range check of every
item. -/
theorem C10_defaults_within_own_ranges {H I : Type} (k : build_constants) (w : World H I) :
    zfs_params.all default_in_range = true ∧
    zfs_params.filterMap
        (fun item => match item.type with
          | item_type.CONFIG_BOOL _ _ => none
          | item_type.CONFIG_UINT32 minval maxval dflt _ => some (item.name, minval, dflt, maxval)
          | item_type.CONFIG_MODE minval maxval dflt _ => some (item.name, minval, dflt, maxval)) =
      [("maxread", 512, 1000000, 1024 * 1024), ("maxwrite", 512, 1000000, 1024 * 1024),
       ("umask", 0, 0, 0o777), ("xattr_access_rights", 0, 0o400, 0o777)] ∧
    (init_config load_config_from_parse k [] w).1 =
      fsalstat fsal_errors_t.ERR_FSAL_NO_ERROR 0 ∧
    (init_config load_config_from_parse k [] w).2.ZFS.fs_info.maxread = 1000000 ∧
    (init_config load_config_from_parse k [] w).2.ZFS.fs_info.maxwrite = 1000000 ∧
    (init_config load_config_from_parse k [] w).2.ZFS.fs_info.umask = 0 ∧
    (init_config load_config_from_parse k [] w).2.ZFS.fs_info.xattr_access_rights = 0o400 ∧
    zfs_params.all
      (fun item => range_ok item (init_config load_config_from_parse k [] w).2.ZFS.fs_info) =
      true := by
  have hrc : ¬ (load_config_from_parse [] zfs_param w.default_zfs_info true).1 < 0 := by
    simp [load_config_from_parse, bind, apply_overrides]
  have hst := init_config_status load_config_from_parse k [] w
  rw [if_neg hrc] at hst
  have hfs := init_config_fs_info load_config_from_parse k [] w
  have hw := load_config_from_parse_within [] w.default_zfs_info true hrc
  refine ⟨by decide, by decide, hst, ?_, ?_, ?_, ?_, ?_⟩
  · rw [hfs]
    simp [load_config_from_parse, bind, apply_overrides, zfs_param, zfs_params, CONF_ITEM_BOOL,
      CONF_ITEM_UI32, CONF_ITEM_MODE, set_default, set_bool, set_ui32, set_mode]
  · rw [hfs]
    simp [load_config_from_parse, bind, apply_overrides, zfs_param, zfs_params, CONF_ITEM_BOOL,
      CONF_ITEM_UI32, CONF_ITEM_MODE, set_default, set_bool, set_ui32, set_mode]
  · rw [hfs]
    simp [load_config_from_parse, bind, apply_overrides, zfs_param, zfs_params, CONF_ITEM_BOOL,
      CONF_ITEM_UI32, CONF_ITEM_MODE, set_default, set_bool, set_ui32, set_mode]
  · rw [hfs]
    simp [load_config_from_parse, bind, apply_overrides, zfs_param, zfs_params, CONF_ITEM_BOOL,
      CONF_ITEM_UI32, CONF_ITEM_MODE, set_default, set_bool, set_ui32, set_mode]
  · rw [hfs]
    exact within_all_range_ok _ hw

end FSAL_ZFS
